import Mathlib

/-!
Verification of the JNI binding surface of the Android asset-manager
resource-resolution system (core/jni/android_util_AssetManager.cpp).

The binding layer is embedded shallowly: each Native* entry point becomes a
pure Lean function over explicit state, machine integers become Nat/Int with
explicit wrapping where the source truncates, and fallible paths return
Option or a result record carrying the pending Java exception.  Parts of the
engine that live outside the visible source (AssetManager2, Theme from
androidfw) are modelled from the specification and marked as such.
-/

namespace AssetManagerJni

/-- Invalid-cookie marker of the native layer.  The constant is declared in
the androidfw headers (androidfw/AssetManager2.h), not in the visible source;
its value -1 is fixed by the source comment that Java asset cookies use 0 as
invalid while the native side uses a negative marker. -/
def kInvalidCookie : Int := -1

/-- Source: ApkAssetsCookieToJavaCookie (android_util_AssetManager.cpp).
A valid native cookie (0-based stack index) is shifted up by one; the
invalid marker becomes -1 ("Java asset cookies have 0 as an invalid cookie,
but TypedArray expects < 0"). -/
def ApkAssetsCookieToJavaCookie (cookie : Int) : Int :=
  if cookie ≠ kInvalidCookie then cookie + 1 else -1

/-- Source: JavaCookieToApkAssetsCookie (android_util_AssetManager.cpp).
A positive Java cookie is shifted down by one; everything else maps to the
invalid marker. -/
def JavaCookieToApkAssetsCookie (cookie : Int) : Int :=
  if cookie > 0 then cookie - 1 else kInvalidCookie

/-- Resource value type tags, from androidfw/ResourceTypes.h (Res_value).
The header is not part of the visible source; the values are the stable
binary-format constants referenced by the source. -/
def TYPE_NULL : Nat := 0x00

/-- Res_value::TYPE_REFERENCE (androidfw/ResourceTypes.h). -/
def TYPE_REFERENCE : Nat := 0x01

/-- Res_value::TYPE_ATTRIBUTE (androidfw/ResourceTypes.h). -/
def TYPE_ATTRIBUTE : Nat := 0x02

/-- Res_value::DATA_NULL_UNDEFINED (androidfw/ResourceTypes.h). -/
def DATA_NULL_UNDEFINED : Nat := 0

/-- Modelled from the spec: the dense flattened per-entry table written by the
attribute-application family has the six fields (type, data, cookie, resid,
changing-configurations, density) at a fixed per-entry stride; the constants
live in androidfw/AttributeResolution.h, which is not in the visible source. -/
def STYLE_NUM_ENTRIES : Nat := 6

/-- Index of the type slot in a flattened style entry. -/
def STYLE_TYPE : Nat := 0

/-- Index of the data slot in a flattened style entry. -/
def STYLE_DATA : Nat := 1

/-- Index of the cookie slot in a flattened style entry. -/
def STYLE_ASSET_COOKIE : Nat := 2

/-- Index of the resource-id slot in a flattened style entry. -/
def STYLE_RESOURCE_ID : Nat := 3

/-- Index of the changing-configurations slot in a flattened style entry. -/
def STYLE_CHANGING_CONFIGURATIONS : Nat := 4

/-- Index of the density slot in a flattened style entry. -/
def STYLE_DENSITY : Nat := 5

/-- AssetManager2::SelectedValue, the native unit of resolution results: type
tag, raw data word, originating cookie, resolved resource id, the
changing-configurations bitmask (flags) and the matched configuration's
density.  Declared in androidfw/AssetManager2.h; the fields used here are
exactly the ones the visible source reads. -/
structure SelectedValue where
  type : Nat
  data : Nat
  cookie : Int
  resid : Nat
  flags : Nat
  density : Nat
  deriving Repr, DecidableEq

/-- The Java-side android.util.TypedValue object, restricted to the fields the
binding writes (gTypedValueOffsets): mType, mData, mString, mAssetCookie,
mResourceId, mChangingConfigurations, mDensity. -/
structure TypedValue where
  type : Int
  data : Int
  string : Option String
  assetCookie : Int
  resourceId : Int
  changingConfigurations : Int
  density : Int
  deriving Repr, DecidableEq

/-- Source: CopyValue (android_util_AssetManager.cpp).  Copies a native
SelectedValue into the Java TypedValue: sets mType, mAssetCookie (translated
by ApkAssetsCookieToJavaCookie), mData, resets mString to null, sets
mResourceId, mChangingConfigurations and mDensity, and returns the translated
Java cookie. -/
def CopyValue (value : SelectedValue) (out_typed_value : TypedValue) :
    TypedValue × Int :=
  let out := { out_typed_value with
    type := (value.type : Int)
    assetCookie := ApkAssetsCookieToJavaCookie value.cookie
    data := (value.data : Int)
    string := none
    resourceId := (value.resid : Int)
    changingConfigurations := (value.flags : Int)
    density := (value.density : Int) }
  (out, ApkAssetsCookieToJavaCookie value.cookie)

/-- A resolved-bag entry (ResolvedBag::Entry): the attribute key together
with the selected value the binding constructs from it
(AssetManager2::SelectedValue(bag, entry)). -/
structure BagEntry where
  key : Nat
  value : SelectedValue
  deriving Repr, DecidableEq

/-- Modelled from the spec: the resolution engine (AssetManager2 in androidfw,
not part of the visible source) as consulted by the binding: an object
identity (the locked pointer), value lookup GetResource(resid, density),
merged-bag lookup GetBag(resid), and the style parent-chain walk
GetBagResIdStack(resid). -/
structure AssetManager2 where
  ptr : Nat
  getResource : Nat → Nat → Option SelectedValue
  getBag : Nat → Option (List BagEntry)
  getBagResIdStack : Nat → Option (List Nat)

/-- Modelled from the spec: the maximum indirection depth of reference
chasing ("a maximum indirection depth (bounded, e.g. 20)"). -/
def kMaxIterations : Nat := 20

/-- Modelled from the spec: one bounded iteration pass of
AssetManager2::ResolveReference (androidfw, not in the visible source):
while the value is a reference to a nonzero resource id, repeat GetResource
on the referenced id; stop at a terminal type; running out of the depth
budget is a failure, not a crash.  A reference to resource id 0 (the @null
convention) is terminal here and is normalized later by the consumers. -/
def ResolveReferenceFuel (am : AssetManager2) : Nat → SelectedValue → Option SelectedValue
  | 0, value =>
    if value.type = TYPE_REFERENCE ∧ value.data ≠ 0 then none else some value
  | fuel + 1, value =>
    if value.type = TYPE_REFERENCE ∧ value.data ≠ 0 then
      match am.getResource value.data 0 with
      | none => none
      | some next => ResolveReferenceFuel am fuel next
    else some value

/-- Modelled from the spec: AssetManager2::ResolveReference with the spec's
depth bound. -/
def ResolveReference (am : AssetManager2) (value : SelectedValue) :
    Option SelectedValue :=
  ResolveReferenceFuel am kMaxIterations value

/-- A context in which every resource id resolves to yet another reference
(the referenced id given by f): the shape of an authoring error creating an
unbounded reference chain or cycle. -/
def mkRefCtx (f : Nat → Nat) : AssetManager2 :=
  ⟨0, fun r _ =>
     some ⟨TYPE_REFERENCE, f r, 0, r, 0, 0⟩, fun _ => none, fun _ => none⟩

/-- Result of a binding call that writes a TypedValue and returns a jint
cookie: the return value plus the written object (none when nothing was
written). -/
structure GetValueResult where
  ret : Int
  written : Option TypedValue
  deriving Repr, DecidableEq

/-- Source: NativeGetResourceValue (android_util_AssetManager.cpp).
GetResource(resid, may_be_bag = false, density); absence returns the
encoded invalid cookie; with resolve_references set, a failed
ResolveReference also returns the encoded invalid cookie; otherwise the
(resolved, since ResolveReference updates the value in place) value is
copied out via CopyValue. -/
def NativeGetResourceValue (am : AssetManager2) (resid density : Nat)
    (typed_value : TypedValue) (resolve_references : Bool) : GetValueResult :=
  match am.getResource resid density with
  | none => ⟨ApkAssetsCookieToJavaCookie kInvalidCookie, none⟩
  | some value =>
    if resolve_references then
      match ResolveReference am value with
      | none => ⟨ApkAssetsCookieToJavaCookie kInvalidCookie, none⟩
      | some resolved =>
        ⟨(CopyValue resolved typed_value).2, some (CopyValue resolved typed_value).1⟩
    else
      ⟨(CopyValue value typed_value).2, some (CopyValue value typed_value).1⟩

/-- Source: the reverse-iterator find_if of NativeGetResourceBagValue ("the
legacy would find the last entry with the target bag entry id"): the last
entry of the merged bag whose key equals the requested id. -/
def findLastEntry (bag : List BagEntry) (bag_entry_id : Nat) : Option BagEntry :=
  bag.reverse.find? (fun e => e.key == bag_entry_id)

/-- Source: NativeGetResourceBagValue (android_util_AssetManager.cpp).
Looks up the bag, takes the last entry with the requested key, resolves the
reference chain, and copies the result out; every failure returns the
encoded invalid cookie. -/
def NativeGetResourceBagValue (am : AssetManager2) (resid bag_entry_id : Nat)
    (typed_value : TypedValue) : GetValueResult :=
  match am.getBag resid with
  | none => ⟨ApkAssetsCookieToJavaCookie kInvalidCookie, none⟩
  | some bag =>
    match findLastEntry bag bag_entry_id with
    | none => ⟨ApkAssetsCookieToJavaCookie kInvalidCookie, none⟩
    | some entry =>
      match ResolveReference am entry.value with
      | none => ⟨ApkAssetsCookieToJavaCookie kInvalidCookie, none⟩
      | some attr_value =>
        ⟨(CopyValue attr_value typed_value).2, some (CopyValue attr_value typed_value).1⟩

/-- The Java exception classes thrown by the modelled binding functions. -/
inductive JavaException where
  | IllegalArgumentException
  | FileNotFoundException
  | NullPointerException
  | IndexOutOfBoundsException
  | IoException
  deriving Repr, DecidableEq

/-- Source: the @null normalization of NativeGetResourceArray ("Deal with the
special @null value -- it turns back to TYPE_NULL"): a resolved value that is
still a reference to resource id 0 becomes an explicit null scalar. -/
def normalizeNullReference (v : SelectedValue) : SelectedValue :=
  if v.type = TYPE_REFERENCE ∧ v.data = 0 then
    { v with type := TYPE_NULL, data := DATA_NULL_UNDEFINED }
  else v

/-- The six slots (type, data, cookie, resid, changing-configurations,
density) the NativeGetResourceArray loop writes for one entry, in cursor
order STYLE_TYPE .. STYLE_DENSITY. -/
def styleSlots (v : SelectedValue) : List Int :=
  [(v.type : Int), (v.data : Int), ApkAssetsCookieToJavaCookie v.cookie,
   (v.resid : Int), (v.flags : Int), (v.density : Int)]

/-- The write loop of NativeGetResourceArray: per entry, resolve references
(failure aborts the whole write, JNI_ABORT discards the buffer), normalize
@null, and emit the six slots at the fixed stride. -/
def resourceArrayLoop (am : AssetManager2) : List BagEntry → Option (List Int)
  | [] => some []
  | e :: rest =>
    match ResolveReference am e.value with
    | none => none
    | some v =>
      match resourceArrayLoop am rest with
      | none => none
      | some tail => some (styleSlots (normalizeNullReference v) ++ tail)

/-- Result of NativeGetResourceArray: the jint return value, the pending Java
exception if one was thrown, and the flattened output buffer contents when
the write loop committed them. -/
structure ArrayResult where
  ret : Int
  exn : Option JavaException
  out : Option (List Int)
  deriving Repr, DecidableEq

/-- Source: NativeGetResourceArray (android_util_AssetManager.cpp).  Missing
bag returns -1; the undersized-buffer guard is transcribed exactly as in the
source (entry_count compared against out_data_length * STYLE_NUM_ENTRIES);
a resolution failure returns -1 with the buffer writes discarded; otherwise
the flattened entries are committed and entry_count is returned. -/
def NativeGetResourceArray (am : AssetManager2) (resid : Nat)
    (out_data_length : Nat) : ArrayResult :=
  match am.getBag resid with
  | none => ⟨-1, none, none⟩
  | some bag =>
    if bag.length > out_data_length * STYLE_NUM_ENTRIES then
      ⟨-1, some JavaException.IllegalArgumentException, none⟩
    else
      match resourceArrayLoop am bag with
      | none => ⟨-1, none, none⟩
      | some out => ⟨(bag.length : Int), none, some out⟩

/-- Asset::AccessMode ACCESS_UNKNOWN (androidfw/Asset.h, not in the visible
source; the enum values are the stable NDK constants). -/
def ACCESS_UNKNOWN : Int := 0

/-- Asset::AccessMode ACCESS_RANDOM (androidfw/Asset.h). -/
def ACCESS_RANDOM : Int := 1

/-- Asset::AccessMode ACCESS_STREAMING (androidfw/Asset.h). -/
def ACCESS_STREAMING : Int := 2

/-- Asset::AccessMode ACCESS_BUFFER (androidfw/Asset.h). -/
def ACCESS_BUFFER : Int := 3

/-- Result of an open-asset binding call: the returned handle (0 on failure),
the pending Java exception, and how many times the engine's Open operation
was invoked. -/
structure OpenResult where
  ret : Int
  exn : Option JavaException
  engineOpenCalls : Nat
  deriving Repr, DecidableEq

/-- Source: NativeOpenAsset (android_util_AssetManager.cpp).  A null path
throws NullPointerException; an access mode that is none of the four enum
values throws IllegalArgumentException and returns 0 before the engine is
consulted; otherwise AssetManager2::Open (modelled as the oracle openF,
keyed by path and mode) runs, with a null result throwing
FileNotFoundException. -/
def NativeOpenAsset (openF : String → Int → Option Int)
    (asset_path : Option String) (access_mode : Int) : OpenResult :=
  match asset_path with
  | none => ⟨0, some JavaException.NullPointerException, 0⟩
  | some path =>
    if access_mode ≠ ACCESS_UNKNOWN ∧ access_mode ≠ ACCESS_RANDOM ∧
        access_mode ≠ ACCESS_STREAMING ∧ access_mode ≠ ACCESS_BUFFER then
      ⟨0, some JavaException.IllegalArgumentException, 0⟩
    else
      match openF path access_mode with
      | none => ⟨0, some JavaException.FileNotFoundException, 1⟩
      | some asset => ⟨asset, none, 1⟩

/-- Source: NativeOpenNonAsset (android_util_AssetManager.cpp).  The Java
cookie is decoded first; a null path throws NullPointerException; the same
access-mode guard as NativeOpenAsset applies; then one of the two
AssetManager2::OpenNonAsset overloads runs (modelled as the oracle openNaF,
receiving the decoded cookie when it is valid). -/
def NativeOpenNonAsset (openNaF : String → Option Int → Int → Option Int)
    (jcookie : Int) (asset_path : Option String) (access_mode : Int) :
    OpenResult :=
  let cookie := JavaCookieToApkAssetsCookie jcookie
  match asset_path with
  | none => ⟨0, some JavaException.NullPointerException, 0⟩
  | some path =>
    if access_mode ≠ ACCESS_UNKNOWN ∧ access_mode ≠ ACCESS_RANDOM ∧
        access_mode ≠ ACCESS_STREAMING ∧ access_mode ≠ ACCESS_BUFFER then
      ⟨0, some JavaException.IllegalArgumentException, 0⟩
    else
      match openNaF path (if cookie ≠ kInvalidCookie then some cookie else none)
          access_mode with
      | none => ⟨0, some JavaException.FileNotFoundException, 1⟩
      | some asset => ⟨asset, none, 1⟩

/-- Constant duplicated from the Java class android.content.res.Configuration
(kScreenLayoutRoundMask in NativeSetConfiguration). -/
def kScreenLayoutRoundMask : Nat := 0x300

/-- kScreenLayoutRoundShift in NativeSetConfiguration. -/
def kScreenLayoutRoundShift : Nat := 8

/-- The ResTable_config fields assigned by NativeSetConfiguration.  The
struct itself is declared in androidfw/ResourceTypes.h; field widths are the
ones the source casts to (uint8_t / uint16_t), represented as Nat with the
truncation made explicit in the assignment. -/
structure ResTable_config where
  mcc : Nat
  mnc : Nat
  orientation : Nat
  touchscreen : Nat
  density : Nat
  keyboard : Nat
  inputFlags : Nat
  navigation : Nat
  screenWidth : Nat
  screenHeight : Nat
  smallestScreenWidthDp : Nat
  screenWidthDp : Nat
  screenHeightDp : Nat
  screenLayout : Nat
  uiMode : Nat
  colorMode : Nat
  grammaticalInflection : Nat
  sdkVersion : Nat
  screenLayout2 : Nat
  deriving Repr, DecidableEq

/-- Source: the configuration-building prefix of NativeSetConfiguration
(android_util_AssetManager.cpp).  Each jint argument (taken as its 32-bit
pattern) is truncated to the declared field width; the round sub-field is
carved out of the high bits of screen_layout into screenLayout2 ("we must
extract the round qualifier out of the Java screenLayout and put it into
screenLayout2"). -/
def NativeSetConfiguration (mcc mnc orientation touchscreen density keyboard
    keyboard_hidden navigation screen_width screen_height
    smallest_screen_width_dp screen_width_dp screen_height_dp screen_layout
    ui_mode color_mode grammatical_gender major_version : Nat) :
    ResTable_config :=
  { mcc := mcc % 2 ^ 16
    mnc := mnc % 2 ^ 16
    orientation := orientation % 2 ^ 8
    touchscreen := touchscreen % 2 ^ 8
    density := density % 2 ^ 16
    keyboard := keyboard % 2 ^ 8
    inputFlags := keyboard_hidden % 2 ^ 8
    navigation := navigation % 2 ^ 8
    screenWidth := screen_width % 2 ^ 16
    screenHeight := screen_height % 2 ^ 16
    smallestScreenWidthDp := smallest_screen_width_dp % 2 ^ 16
    screenWidthDp := screen_width_dp % 2 ^ 16
    screenHeightDp := screen_height_dp % 2 ^ 16
    screenLayout := screen_layout % 2 ^ 8
    uiMode := ui_mode % 2 ^ 8
    colorMode := color_mode % 2 ^ 8
    grammaticalInflection := grammatical_gender % 2 ^ 8
    sdkVersion := major_version % 2 ^ 16
    screenLayout2 :=
      (screen_layout &&& kScreenLayoutRoundMask) >>> kScreenLayoutRoundShift }

/-- Modelled from the spec: a Theme (androidfw, not in the visible source) —
its owning Resolution Context identity, the rebase log of applied
(style id, force) records, and the flattened attribute table. -/
structure Theme where
  owner : Nat
  log : List (Nat × Bool)
  table : List (Nat × SelectedValue)
  deriving Repr, DecidableEq

/-- Lookup of an attribute key in a flattened attribute table. -/
def tableLookup (table : List (Nat × SelectedValue)) (key : Nat) :
    Option SelectedValue :=
  (table.find? (fun kv => kv.1 == key)).map Prod.snd

/-- Write/overwrite of an attribute key in a flattened attribute table. -/
def tableSet (table : List (Nat × SelectedValue)) (key : Nat)
    (v : SelectedValue) : List (Nat × SelectedValue) :=
  match table with
  | [] => [(key, v)]
  | kv :: rest =>
    if kv.1 = key then (key, v) :: rest else kv :: tableSet rest key v

/-- Modelled from the spec: one attribute write of Theme::ApplyStyle — the
entry is written if the key is not yet present in the flattened table or the
force flag is set. -/
def applyEntry (force : Bool) (table : List (Nat × SelectedValue))
    (e : BagEntry) : List (Nat × SelectedValue) :=
  if (tableLookup table e.key).isSome ∧ force = false then table
  else tableSet table e.key e.value

/-- Modelled from the spec: Theme::ApplyStyle(resid, force) — resolve the
style's bag, write each entry subject to the present/force rule, and append
(resid, force) to the rebase log. -/
def Theme.applyStyle (am : AssetManager2) (t : Theme) (resid : Nat)
    (force : Bool) : Theme :=
  match am.getBag resid with
  | none => t
  | some bag =>
    { t with
      table := bag.foldl (applyEntry force) t.table
      log := t.log ++ [(resid, force)] }

/-- Modelled from the spec: a freshly created Theme attached to the given
context: empty rebase log, empty attribute table. -/
def Theme.newTheme (mgr : Nat) : Theme := ⟨mgr, [], []⟩

/-- Modelled from the spec: Theme::Rebase — clear the flattened table and the
rebase log, re-associate the theme with the given context, then replay
ApplyStyle for each recorded (style id, force) pair. -/
def Theme.rebase (am : AssetManager2) (t : Theme)
    (pairs : List (Nat × Bool)) : Theme :=
  pairs.foldl (fun th p => Theme.applyStyle am th p.1 p.2)
    { t with owner := am.ptr, table := [], log := [] }

/-- Modelled from the spec: Theme::SetTo — wholesale copy of the flattened
table and the rebase log from another theme; the destination keeps its own
context association. -/
def Theme.setTo (dst src : Theme) : Theme :=
  { dst with log := src.log, table := src.table }

/-- Modelled from the spec: Theme::GetAttribute — direct lookup in the
flattened table. -/
def Theme.getAttribute (t : Theme) (resid : Nat) : Option SelectedValue :=
  tableLookup t.table resid

/-- Outcome of a native call whose entry-point assertions may fire: abort
models a failed CHECK (abort-level assertion), ok a normal return. -/
inductive JniResult (α : Type) where
  | abort : JniResult α
  | ok : α → JniResult α
  deriving Repr, DecidableEq

/-- Source: NativeThemeApplyStyle (android_util_AssetManager.cpp).
CHECK(theme->GetAssetManager() == locked manager), then
Theme::ApplyStyle. -/
def NativeThemeApplyStyle (am : AssetManager2) (t : Theme) (resid : Nat)
    (force : Bool) : JniResult Theme :=
  if t.owner = am.ptr then JniResult.ok (Theme.applyStyle am t resid force)
  else JniResult.abort

/-- Source: NativeThemeRebase (android_util_AssetManager.cpp).  The (style
id, force) pairs are copied out of the Java arrays and handed to
Theme::Rebase against the locked manager; no theme/manager identity CHECK is
performed on this path. -/
def NativeThemeRebase (am : AssetManager2) (t : Theme)
    (pairs : List (Nat × Bool)) : JniResult Theme :=
  JniResult.ok (Theme.rebase am t pairs)

/-- Source: NativeThemeGetAttributeValue (android_util_AssetManager.cpp).
CHECK the theme/manager identity, Theme::GetAttribute, then optionally
resolve references (failure returning the encoded invalid cookie) and copy
the result out. -/
def NativeThemeGetAttributeValue (am : AssetManager2) (t : Theme)
    (resid : Nat) (typed_value : TypedValue) (resolve_references : Bool) :
    JniResult GetValueResult :=
  if t.owner = am.ptr then
    JniResult.ok
      (match Theme.getAttribute t resid with
      | none => ⟨ApkAssetsCookieToJavaCookie kInvalidCookie, none⟩
      | some value =>
        if resolve_references = false then
          ⟨(CopyValue value typed_value).2, some (CopyValue value typed_value).1⟩
        else
          match ResolveReference am value with
          | none => ⟨ApkAssetsCookieToJavaCookie kInvalidCookie, none⟩
          | some v =>
            ⟨(CopyValue v typed_value).2, some (CopyValue v typed_value).1⟩)
  else JniResult.abort

/-- Source: NativeThemeDump (android_util_AssetManager.cpp).  CHECK the
theme/manager identity, then dump (a pure diagnostic, modelled as unit). -/
def NativeThemeDump (am : AssetManager2) (t : Theme) : JniResult Unit :=
  if t.owner = am.ptr then JniResult.ok () else JniResult.abort

/-- Source: NativeThemeCopy (android_util_AssetManager.cpp).  The source
theme is always CHECKed against the source manager; the destination theme is
CHECKed against the destination manager only on the branch where the two
manager pointers differ. -/
def NativeThemeCopy (dst_am : AssetManager2) (dst_t : Theme)
    (src_am : AssetManager2) (src_t : Theme) : JniResult Theme :=
  if src_t.owner = src_am.ptr then
    if dst_am.ptr ≠ src_am.ptr then
      if dst_t.owner = dst_am.ptr then JniResult.ok (Theme.setTo dst_t src_t)
      else JniResult.abort
    else JniResult.ok (Theme.setTo dst_t src_t)
  else JniResult.abort

/-- Source: NativeAttributeResolutionStack (android_util_AssetManager.cpp).
CHECK the theme/manager identity; a nonzero default-style attribute that
resolves in the theme to a reference replaces the default-style resource id;
the two GetBagResIdStack walks are concatenated, a failed walk throwing an
IO-class exception and returning null. -/
def NativeAttributeResolutionStack (am : AssetManager2) (t : Theme)
    (xml_style_res def_style_attr def_style_resid : Nat) :
    JniResult (Option (List Nat) × Option JavaException) :=
  if t.owner = am.ptr then
    let def_resid :=
      if def_style_attr ≠ 0 then
        match Theme.getAttribute t def_style_attr with
        | some v => if v.type = TYPE_REFERENCE then v.data else def_style_resid
        | none => def_style_resid
      else def_style_resid
    match am.getBagResIdStack xml_style_res with
    | none => JniResult.ok (none, some JavaException.IoException)
    | some style_stack =>
      match am.getBagResIdStack def_resid with
      | none => JniResult.ok (none, some JavaException.IoException)
      | some def_style_stack =>
        JniResult.ok (some (style_stack ++ def_style_stack), none)
  else JniResult.abort

/-- Source: NativeResolveAttrs (android_util_AssetManager.cpp).  The
undersized-output guard runs before the lock; then the theme/manager CHECK;
the ResolveAttrs engine call itself (androidfw/AttributeResolution.cpp, not
in the visible source) is abstracted as its success flag. -/
def NativeResolveAttrs (am : AssetManager2) (t : Theme)
    (attrs_len out_values_len : Nat) (engineOk : Bool) :
    JniResult (Bool × Option JavaException) :=
  if out_values_len < attrs_len * STYLE_NUM_ENTRIES then
    JniResult.ok (false, some JavaException.IndexOutOfBoundsException)
  else if t.owner = am.ptr then JniResult.ok (engineOk, none)
  else JniResult.abort

/-- A terminal (integer-typed) selected value used in concrete examples;
0x10 is Res_value::TYPE_INT_DEC. -/
def intVal (d : Nat) : SelectedValue := ⟨0x10, d, 0, 0, 0, 0⟩

/-- A concrete engine used by the witnesses: bag 10 has a duplicated key 5
(last occurrence carrying data 33), bag 20 holds a single @null reference,
bag 30 holds two plain integer entries. -/
def amEx : AssetManager2 :=
  ⟨0, fun _ _ => none,
   fun r =>
     if r = 10 then some [⟨5, intVal 11⟩, ⟨7, intVal 22⟩, ⟨5, intVal 33⟩]
     else if r = 20 then some [⟨5, ⟨TYPE_REFERENCE, 0, 2, 42, 3, 4⟩⟩]
     else if r = 30 then some [⟨1, intVal 1⟩, ⟨2, intVal 2⟩]
     else none,
   fun _ => none⟩

/-- A TypedValue in its default state, used as the out-parameter in concrete
examples. -/
def tvEx : TypedValue := ⟨0, 0, none, 0, 0, 0, 0⟩

/-- A concrete asset path used in concrete examples. -/
def pathEx : String := "res/raw/data.bin"

/-- A concrete engine in which every resource resolves to a reference to
resource id 1: a one-step reference cycle. -/
def refCtxEx : AssetManager2 := mkRefCtx (fun _ => 1)

end AssetManagerJni

namespace AssetManagerJni

/-- C1: encoding a valid (non-negative, non-invalid) native cookie to the Java
side and decoding it again recovers the original cookie; the invalid marker
encodes to the external sentinel -1, and that sentinel decodes back to the
invalid marker (it never decodes to a valid cookie). -/
theorem cookie_roundtrip (c : Int) (h1 : c ≠ kInvalidCookie) (h2 : 0 ≤ c) :
    JavaCookieToApkAssetsCookie (ApkAssetsCookieToJavaCookie c) = c ∧
    ApkAssetsCookieToJavaCookie kInvalidCookie = -1 ∧
    JavaCookieToApkAssetsCookie (-1) = kInvalidCookie := by
  refine ⟨?_, ?_, ?_⟩
  · simp only [ApkAssetsCookieToJavaCookie, JavaCookieToApkAssetsCookie, if_pos h1]
    have hpos : c + 1 > 0 := by omega
    simp [hpos]
  · simp [ApkAssetsCookieToJavaCookie]
  · simp [JavaCookieToApkAssetsCookie]

/-- Witness for C1 at the concrete cookie 3. -/
theorem cookie_roundtrip_witness :
    JavaCookieToApkAssetsCookie (ApkAssetsCookieToJavaCookie 3) = 3 ∧
    ApkAssetsCookieToJavaCookie kInvalidCookie = -1 ∧
    JavaCookieToApkAssetsCookie (-1) = kInvalidCookie :=
  cookie_roundtrip 3 (by decide) (by decide)

/-- C10: CopyValue writes exactly the seven TypedValue fields from the
selected value — type, data, resolved resource id, changing-configurations
flags, matched density, the cookie translated by ApkAssetsCookieToJavaCookie —
always resets the string field to null, and returns the same translated Java
cookie it stored in the cookie field. -/
theorem copyValue_contract (value : SelectedValue) (out : TypedValue) :
    (CopyValue value out).1.type = (value.type : Int) ∧
    (CopyValue value out).1.data = (value.data : Int) ∧
    (CopyValue value out).1.resourceId = (value.resid : Int) ∧
    (CopyValue value out).1.changingConfigurations = (value.flags : Int) ∧
    (CopyValue value out).1.density = (value.density : Int) ∧
    (CopyValue value out).1.assetCookie = ApkAssetsCookieToJavaCookie value.cookie ∧
    (CopyValue value out).1.string = none ∧
    (CopyValue value out).2 = (CopyValue value out).1.assetCookie := by
  refine ⟨rfl, rfl, rfl, rfl, rfl, rfl, rfl, rfl⟩

/-- The invalid native cookie encodes to -1 on the Java side. -/
theorem encode_invalid_cookie : ApkAssetsCookieToJavaCookie kInvalidCookie = -1 := by
  simp [ApkAssetsCookieToJavaCookie]

/-- C6: an access mode outside the four-value enum makes both NativeOpenAsset
and NativeOpenNonAsset throw IllegalArgumentException and return 0 without
the engine's Open operation ever being invoked. -/
theorem openAsset_bad_access_mode
    (openF : String → Int → Option Int)
    (openNaF : String → Option Int → Int → Option Int)
    (path : String) (jcookie access_mode : Int)
    (h : access_mode ≠ ACCESS_UNKNOWN ∧ access_mode ≠ ACCESS_RANDOM ∧
        access_mode ≠ ACCESS_STREAMING ∧ access_mode ≠ ACCESS_BUFFER) :
    NativeOpenAsset openF (some path) access_mode =
      ⟨0, some JavaException.IllegalArgumentException, 0⟩ ∧
    NativeOpenNonAsset openNaF jcookie (some path) access_mode =
      ⟨0, some JavaException.IllegalArgumentException, 0⟩ := by
  constructor
  · simp only [NativeOpenAsset]
    rw [if_pos h]
  · simp only [NativeOpenNonAsset]
    rw [if_pos h]

/-- Witness for C6 at the concrete out-of-range access mode 7. -/
theorem openAsset_bad_access_mode_witness :
    NativeOpenAsset (fun _ _ => none) (some pathEx) 7 =
      ⟨0, some JavaException.IllegalArgumentException, 0⟩ ∧
    NativeOpenNonAsset (fun _ _ _ => none) 2 (some pathEx) 7 =
      ⟨0, some JavaException.IllegalArgumentException, 0⟩ :=
  openAsset_bad_access_mode (fun _ _ => none) (fun _ _ _ => none) pathEx 2 7
    (by refine ⟨?_, ?_, ?_, ?_⟩ <;> decide)

/-- Extracting the two round bits: masking with 0x300 and shifting right by 8
is the same as taking bits 8 and 9. -/
theorem land_round_mask_shift (n : Nat) :
    (n &&& 0x300) >>> 8 = n / 2 ^ 8 % 2 ^ 2 := by
  apply Nat.eq_of_testBit_eq
  intro i
  rw [← Nat.shiftRight_eq_div_pow]
  simp only [Nat.testBit_shiftRight, Nat.testBit_and, Nat.testBit_mod_two_pow]
  by_cases hi : i < 2
  · have h8 : Nat.testBit 768 8 = true := by decide
    have h9 : Nat.testBit 768 9 = true := by decide
    interval_cases i <;> simp [h8, h9]
  · have h768 : Nat.testBit 768 (8 + i) = false :=
      Nat.testBit_eq_false_of_lt (by
        calc (768 : Nat) < 2 ^ 10 := by norm_num
        _ ≤ 2 ^ (8 + i) := Nat.pow_le_pow_right (by norm_num) (by omega))
    simp [h768, hi]

/-- C9: NativeSetConfiguration stores the truncated low byte of the 32-bit
screen_layout argument in the 8-bit screenLayout field, and carves the round
sub-field out of the high bits into screenLayout2 as
(screen_layout AND 0x300) >> 8 — which equals bits 8..9 of the argument, so
the round qualifier is not lost to the 8-bit truncation. -/
theorem setConfiguration_round_qualifier (mcc mnc orientation touchscreen
    density keyboard keyboard_hidden navigation screen_width screen_height
    smallest_screen_width_dp screen_width_dp screen_height_dp screen_layout
    ui_mode color_mode grammatical_gender major_version : Nat) :
    (NativeSetConfiguration mcc mnc orientation touchscreen density keyboard
        keyboard_hidden navigation screen_width screen_height
        smallest_screen_width_dp screen_width_dp screen_height_dp
        screen_layout ui_mode color_mode grammatical_gender
        major_version).screenLayout = screen_layout % 2 ^ 8 ∧
    (NativeSetConfiguration mcc mnc orientation touchscreen density keyboard
        keyboard_hidden navigation screen_width screen_height
        smallest_screen_width_dp screen_width_dp screen_height_dp
        screen_layout ui_mode color_mode grammatical_gender
        major_version).screenLayout2 =
      (screen_layout &&& kScreenLayoutRoundMask) >>> kScreenLayoutRoundShift ∧
    (NativeSetConfiguration mcc mnc orientation touchscreen density keyboard
        keyboard_hidden navigation screen_width screen_height
        smallest_screen_width_dp screen_width_dp screen_height_dp
        screen_layout ui_mode color_mode grammatical_gender
        major_version).screenLayout2 = screen_layout / 2 ^ 8 % 2 ^ 2 := by
  refine ⟨rfl, rfl, ?_⟩
  exact land_round_mask_shift screen_layout

/-- In a context where every lookup yields another nonzero reference, the
bounded resolver fails for every fuel budget instead of diverging. -/
theorem resolveReferenceFuel_refCtx_none (f : Nat → Nat) (hf : ∀ r, f r ≠ 0) :
    ∀ (fuel : Nat) (v : SelectedValue), v.type = TYPE_REFERENCE → v.data ≠ 0 →
      ResolveReferenceFuel (mkRefCtx f) fuel v = none := by
  intro fuel
  induction fuel with
  | zero =>
    intro v ht hd
    simp [ResolveReferenceFuel, ht, hd]
  | succ n ih =>
    intro v ht hd
    have hcond : v.type = TYPE_REFERENCE ∧ v.data ≠ 0 := ⟨ht, hd⟩
    simp only [ResolveReferenceFuel, if_pos hcond]
    exact ih ⟨TYPE_REFERENCE, f v.data, 0, v.data, 0, 0⟩ rfl (hf v.data)

/-- C5: with resolve_references set, a reference chain that fails to reach a
terminal type within the depth bound makes NativeGetResourceValue return the
invalid Java cookie -1 as an ordinary not-found result; in particular the
bounded resolver reports failure (rather than diverging) on every context
whose lookups always produce yet another reference. -/
theorem getResourceValue_indirection_overrun (am : AssetManager2)
    (resid density : Nat) (tv : TypedValue) (v : SelectedValue)
    (hget : am.getResource resid density = some v)
    (hfail : ResolveReference am v = none) :
    NativeGetResourceValue am resid density tv true = ⟨-1, none⟩ ∧
    (∀ (f : Nat → Nat), (∀ r, f r ≠ 0) → ∀ (w : SelectedValue),
      w.type = TYPE_REFERENCE → w.data ≠ 0 →
      ResolveReference (mkRefCtx f) w = none) := by
  constructor
  · simp [NativeGetResourceValue, hget, hfail, encode_invalid_cookie]
  · intro f hf w ht hd
    exact resolveReferenceFuel_refCtx_none f hf kMaxIterations w ht hd

/-- Witness for C5: in the one-step reference cycle every id refers to id 1,
so resolving resource 1 with references on yields -1. -/
theorem getResourceValue_indirection_overrun_witness :
    NativeGetResourceValue refCtxEx 1 0 tvEx true = ⟨-1, none⟩ :=
  (getResourceValue_indirection_overrun refCtxEx 1 0 tvEx
    ⟨TYPE_REFERENCE, 1, 0, 1, 0, 0⟩ (by decide) (by decide)).1

/-- A bag has no entry with the requested key exactly when the
reverse-iterator search comes back empty. -/
theorem findLastEntry_eq_none_iff (bag : List BagEntry) (k : Nat) :
    findLastEntry bag k = none ↔ ∀ e ∈ bag, e.key ≠ k := by
  simp [findLastEntry]

/-- The reverse-iterator search returns the match that no later entry
duplicates: splitting the bag as l1 ++ e :: l2 with e matching and nothing
in l2 matching pins the result to e. -/
theorem findLastEntry_last_match (l1 : List BagEntry) (e : BagEntry)
    (l2 : List BagEntry) (k : Nat) (he : e.key = k)
    (h2 : ∀ x ∈ l2, x.key ≠ k) :
    findLastEntry (l1 ++ e :: l2) k = some e := by
  unfold findLastEntry
  have hnone : l2.reverse.find? (fun x => x.key == k) = none := by
    rw [List.find?_eq_none]
    intro x hx
    simpa using h2 x (List.mem_reverse.mp hx)
  rw [List.reverse_append, List.reverse_cons, List.append_assoc,
    List.singleton_append, List.find?_append, hnone]
  simp [List.find?_cons, he]

/-- C3: NativeGetResourceBagValue selects the last entry in merge order
whose key matches: if no entry of the bag carries the key it returns the
invalid cookie -1, and if the bag splits as l1 ++ e :: l2 with e matching
and no later entry matching, the result is e's value (after reference
resolution) copied out. -/
theorem bagValue_last_match (am : AssetManager2) (resid k : Nat)
    (tv : TypedValue) (bag : List BagEntry)
    (hbag : am.getBag resid = some bag) :
    ((∀ e ∈ bag, e.key ≠ k) →
      NativeGetResourceBagValue am resid k tv = ⟨-1, none⟩) ∧
    (∀ (l1 : List BagEntry) (e : BagEntry) (l2 : List BagEntry)
        (v : SelectedValue),
      bag = l1 ++ e :: l2 → e.key = k → (∀ x ∈ l2, x.key ≠ k) →
      ResolveReference am e.value = some v →
      NativeGetResourceBagValue am resid k tv =
        ⟨(CopyValue v tv).2, some (CopyValue v tv).1⟩) := by
  constructor
  · intro h
    have hnone : findLastEntry bag k = none :=
      (findLastEntry_eq_none_iff bag k).mpr h
    simp [NativeGetResourceBagValue, hbag, hnone, encode_invalid_cookie]
  · intro l1 e l2 v hsplit he h2 hres
    subst hsplit
    have hfind := findLastEntry_last_match l1 e l2 k he h2
    simp [NativeGetResourceBagValue, hbag, hfind, hres]

/-- Witness for C3: in bag 10 the key 5 occurs twice; the returned value is
the one of the last occurrence (data 33, not 11). -/
theorem bagValue_last_match_witness :
    NativeGetResourceBagValue amEx 10 5 tvEx =
      ⟨(CopyValue (intVal 33) tvEx).2, some (CopyValue (intVal 33) tvEx).1⟩ :=
  (bagValue_last_match amEx 10 5 tvEx
      [⟨5, intVal 11⟩, ⟨7, intVal 22⟩, ⟨5, intVal 33⟩] (by decide)).2
    [⟨5, intVal 11⟩, ⟨7, intVal 22⟩] ⟨5, intVal 33⟩ [] (intVal 33)
    rfl rfl (by intro x hx; cases hx) (by decide)

/-- C2, failing input: bag 30 has 2 entries, so its flattened form needs
2 * STYLE_NUM_ENTRIES = 12 output slots, yet with an output array of length
2 the transcribed guard (entry_count > out_data_length * STYLE_NUM_ENTRIES,
i.e. 2 > 12) does not fire: the call throws nothing, returns the entry count
2, and emits all 12 slots — where the claimed (and intended, per the
source's own "Input array is not large enough" message) behavior is an
IllegalArgumentException with return -1. -/
theorem resourceArray_guard_failing_input :
    NativeGetResourceArray amEx 30 2 =
      ⟨2, none, some [16, 1, 1, 0, 0, 0, 16, 2, 1, 0, 0, 0]⟩ ∧
    2 < 2 * STYLE_NUM_ENTRIES := by decide

/-- Slot j of entry i in the committed flattened buffer comes from the
resolved, @null-normalized value of bag entry i. -/
theorem resourceArrayLoop_slots (am : AssetManager2) :
    ∀ (bag : List BagEntry) (out : List Int),
      resourceArrayLoop am bag = some out →
      ∀ (i : Nat) (hi : i < bag.length) (v : SelectedValue),
        ResolveReference am (bag.get ⟨i, hi⟩).value = some v →
        ∀ (j : Nat), j < STYLE_NUM_ENTRIES →
          out.get? (i * STYLE_NUM_ENTRIES + j) =
            (styleSlots (normalizeNullReference v)).get? j := by
  intro bag
  induction bag with
  | nil =>
    intro out _ i hi
    exact absurd hi (by simp)
  | cons e rest ih =>
    intro out hout i hi v hv j hj
    simp only [resourceArrayLoop] at hout
    cases hres : ResolveReference am e.value with
    | none => rw [hres] at hout; cases hout
    | some v0 =>
      rw [hres] at hout
      cases hrest : resourceArrayLoop am rest with
      | none => rw [hrest] at hout; cases hout
      | some tail =>
        rw [hrest] at hout
        injection hout with hout
        subst hout
        have hlen : (styleSlots (normalizeNullReference v0)).length =
            STYLE_NUM_ENTRIES := by
          simp [styleSlots, STYLE_NUM_ENTRIES]
        cases i with
        | zero =>
          have hv0 : ResolveReference am e.value = some v := hv
          rw [hres] at hv0
          injection hv0 with hv0
          subst hv0
          rw [Nat.zero_mul, Nat.zero_add]
          rw [List.get?_append (by omega)]
        | succ i2 =>
          have hi2 : i2 < rest.length := by simpa using hi
          have hv2 : ResolveReference am (rest.get ⟨i2, hi2⟩).value = some v := hv
          rw [List.get?_append_right (by rw [hlen]; simp [STYLE_NUM_ENTRIES]; omega)]
          rw [hlen]
          have harith : (i2 + 1) * STYLE_NUM_ENTRIES + j - STYLE_NUM_ENTRIES =
              i2 * STYLE_NUM_ENTRIES + j := by
            simp [STYLE_NUM_ENTRIES]; omega
          rw [harith]
          exact ih tail hrest i2 hi2 v hv2 j hj

/-- C4: in a committed NativeGetResourceArray result, every entry whose
value resolves to a reference to resource id 0 is written as an explicit
null: its type slot holds TYPE_NULL and its data slot DATA_NULL_UNDEFINED,
never the dangling reference. -/
theorem resourceArray_null_normalization (am : AssetManager2)
    (resid out_len : Nat) (bag : List BagEntry) (out : List Int) (i : Nat)
    (hi : i < bag.length) (v : SelectedValue)
    (hbag : am.getBag resid = some bag)
    (hguard : ¬ bag.length > out_len * STYLE_NUM_ENTRIES)
    (hloop : resourceArrayLoop am bag = some out)
    (hv : ResolveReference am (bag.get ⟨i, hi⟩).value = some v)
    (ht : v.type = TYPE_REFERENCE) (hd : v.data = 0) :
    NativeGetResourceArray am resid out_len =
      ⟨(bag.length : Int), none, some out⟩ ∧
    out.get? (i * STYLE_NUM_ENTRIES + STYLE_TYPE) =
      some ((TYPE_NULL : Nat) : Int) ∧
    out.get? (i * STYLE_NUM_ENTRIES + STYLE_DATA) =
      some ((DATA_NULL_UNDEFINED : Nat) : Int) := by
  have hnorm : normalizeNullReference v =
      { v with type := TYPE_NULL, data := DATA_NULL_UNDEFINED } := by
    simp [normalizeNullReference, ht, hd]
  refine ⟨?_, ?_, ?_⟩
  · simp [NativeGetResourceArray, hbag, hguard, hloop]
  · rw [resourceArrayLoop_slots am bag out hloop i hi v hv STYLE_TYPE
      (by simp [STYLE_TYPE, STYLE_NUM_ENTRIES])]
    rw [hnorm]
    simp [styleSlots, STYLE_TYPE]
  · rw [resourceArrayLoop_slots am bag out hloop i hi v hv STYLE_DATA
      (by simp [STYLE_DATA, STYLE_NUM_ENTRIES])]
    rw [hnorm]
    simp [styleSlots, STYLE_DATA]

/-- Witness for C4: bag 20 holds one @null entry (a reference to id 0); its
flattened slots open with TYPE_NULL and DATA_NULL_UNDEFINED. -/
theorem resourceArray_null_normalization_witness :
    NativeGetResourceArray amEx 20 1 = ⟨1, none, some [0, 0, 3, 42, 3, 4]⟩ ∧
    ([0, 0, 3, 42, 3, 4] : List Int).get? 0 = some ((TYPE_NULL : Nat) : Int) ∧
    ([0, 0, 3, 42, 3, 4] : List Int).get? 1 =
      some ((DATA_NULL_UNDEFINED : Nat) : Int) :=
  resourceArray_null_normalization amEx 20 1 [⟨5, ⟨TYPE_REFERENCE, 0, 2, 42, 3, 4⟩⟩]
    [0, 0, 3, 42, 3, 4] 0 (by decide) ⟨TYPE_REFERENCE, 0, 2, 42, 3, 4⟩
    (by decide) (by decide) (by decide) (by decide) (by decide) (by decide)

/-- C7, counterexample: NativeThemeRebase performs no theme/context identity
check — a theme owned by manager 1 presented to the rebase entry point of
manager 0 is re-based normally, not aborted; likewise NativeThemeCopy skips
the destination-theme check whenever the two manager pointers are equal: a
destination theme owned by manager 5 is copied into without any assertion
firing. -/
theorem theme_identity_check_counterexample :
    (Theme.mk 1 [] []).owner ≠ amEx.ptr ∧
    NativeThemeRebase amEx (Theme.mk 1 [] []) [] =
      JniResult.ok (Theme.mk 0 [] []) ∧
    (Theme.mk 5 [] []).owner ≠ amEx.ptr ∧
    NativeThemeCopy amEx (Theme.mk 5 [] []) amEx (Theme.mk 0 [] []) =
      JniResult.ok (Theme.mk 5 [] []) := by
  refine ⟨by decide, rfl, by decide, rfl⟩

/-- C7, amended: every theme entry point that CHECKs identity
(NativeThemeApplyStyle, NativeAttributeResolutionStack, NativeResolveAttrs
past its buffer guard, NativeThemeGetAttributeValue, NativeThemeDump, and
NativeThemeCopy for its source theme always and for its destination theme
when the manager pointers differ) aborts on a mismatched theme and never
returns normally; NativeThemeRebase performs no identity check and never
aborts, and NativeThemeCopy does not check the destination theme when source
and destination manager pointers coincide. -/
theorem theme_identity_checks_amended (am : AssetManager2) (t : Theme)
    (h : t.owner ≠ am.ptr) :
    (∀ (resid : Nat) (force : Bool),
      NativeThemeApplyStyle am t resid force = JniResult.abort) ∧
    (∀ (xml dsa dsr : Nat),
      NativeAttributeResolutionStack am t xml dsa dsr = JniResult.abort) ∧
    (∀ (al ol : Nat) (engineOk : Bool), al * STYLE_NUM_ENTRIES ≤ ol →
      NativeResolveAttrs am t al ol engineOk = JniResult.abort) ∧
    (∀ (resid : Nat) (tv : TypedValue) (rr : Bool),
      NativeThemeGetAttributeValue am t resid tv rr = JniResult.abort) ∧
    NativeThemeDump am t = JniResult.abort ∧
    (∀ (dst_am : AssetManager2) (dst_t : Theme),
      NativeThemeCopy dst_am dst_t am t = JniResult.abort) ∧
    (∀ (src_am : AssetManager2) (src_t : Theme),
      src_t.owner = src_am.ptr → am.ptr ≠ src_am.ptr →
      NativeThemeCopy am t src_am src_t = JniResult.abort) ∧
    (∀ (pairs : List (Nat × Bool)),
      NativeThemeRebase am t pairs ≠ JniResult.abort) := by
  refine ⟨?_, ?_, ?_, ?_, ?_, ?_, ?_, ?_⟩
  · intro resid force
    simp [NativeThemeApplyStyle, h]
  · intro xml dsa dsr
    simp [NativeAttributeResolutionStack, h]
  · intro al ol engineOk hlen
    simp only [NativeResolveAttrs]
    rw [if_neg (by omega), if_neg h]
  · intro resid tv rr
    simp [NativeThemeGetAttributeValue, h]
  · simp [NativeThemeDump, h]
  · intro dst_am dst_t
    simp [NativeThemeCopy, h]
  · intro src_am src_t hsrc hne
    simp [NativeThemeCopy, hsrc, hne, h]
  · intro pairs
    simp [NativeThemeRebase]

/-- Witness for C7-amended at manager amEx (ptr 0) and a theme owned by 1. -/
theorem theme_identity_checks_amended_witness :
    NativeThemeApplyStyle amEx (Theme.mk 1 [] []) 3 true = JniResult.abort ∧
    NativeAttributeResolutionStack amEx (Theme.mk 1 [] []) 4 0 0 =
      JniResult.abort ∧
    NativeResolveAttrs amEx (Theme.mk 1 [] []) 1 6 true = JniResult.abort ∧
    NativeThemeGetAttributeValue amEx (Theme.mk 1 [] []) 3 tvEx true =
      JniResult.abort ∧
    NativeThemeDump amEx (Theme.mk 1 [] []) = JniResult.abort ∧
    NativeThemeCopy amEx (Theme.mk 7 [] []) amEx (Theme.mk 1 [] []) =
      JniResult.abort ∧
    NativeThemeRebase amEx (Theme.mk 1 [] []) [] ≠ JniResult.abort :=
  have h := theme_identity_checks_amended amEx (Theme.mk 1 [] []) (by decide)
  ⟨h.1 3 true, h.2.1 4 0 0, h.2.2.1 1 6 true (by decide),
    h.2.2.2.1 3 tvEx true, h.2.2.2.2.1, h.2.2.2.2.2.1 amEx (Theme.mk 7 [] []),
    h.2.2.2.2.2.2.2 []⟩

/-- Theme.applyStyle never changes the owning-context association. -/
theorem applyStyle_owner (am : AssetManager2) (t : Theme) (resid : Nat)
    (force : Bool) : (Theme.applyStyle am t resid force).owner = t.owner := by
  cases hb : am.getBag resid <;> simp [Theme.applyStyle, hb]

/-- Applying a style whose bag is absent leaves the theme unchanged. -/
theorem applyStyle_none (am : AssetManager2) (t : Theme) (resid : Nat)
    (force : Bool) (hb : am.getBag resid = none) :
    Theme.applyStyle am t resid force = t := by
  simp [Theme.applyStyle, hb]

/-- Applying a style whose bag exists appends the (style, force) record to
the rebase log. -/
theorem applyStyle_log (am : AssetManager2) (t : Theme) (resid : Nat)
    (force : Bool) (bag : List BagEntry) (hb : am.getBag resid = some bag) :
    (Theme.applyStyle am t resid force).log = t.log ++ [(resid, force)] := by
  simp [Theme.applyStyle, hb]

/-- Replay invariant: a theme whose table is reproducible by replaying its
log from a fresh theme keeps that property under any further sequence of
ApplyStyle calls. -/
theorem rebase_replay_aux (am : AssetManager2) :
    ∀ (pairs : List (Nat × Bool)) (t : Theme),
      t.owner = am.ptr →
      t.log.foldl (fun th p => Theme.applyStyle am th p.1 p.2)
        (Theme.newTheme am.ptr) = t →
      (pairs.foldl (fun th p => Theme.applyStyle am th p.1 p.2) t).owner =
        am.ptr ∧
      ((pairs.foldl (fun th p => Theme.applyStyle am th p.1 p.2) t).log).foldl
        (fun th p => Theme.applyStyle am th p.1 p.2) (Theme.newTheme am.ptr) =
        pairs.foldl (fun th p => Theme.applyStyle am th p.1 p.2) t := by
  intro pairs
  induction pairs with
  | nil =>
    intro t h1 h2
    exact ⟨h1, h2⟩
  | cons p rest ih =>
    intro t h1 h2
    simp only [List.foldl_cons]
    apply ih
    · rw [applyStyle_owner]
      exact h1
    · cases hb : am.getBag p.1 with
      | none =>
        rw [applyStyle_none am t p.1 p.2 hb]
        exact h2
      | some bag =>
        rw [applyStyle_log am t p.1 p.2 bag hb, List.foldl_append, h2]
        rfl

/-- C8: rebasing any theme with a given (style id, force) sequence against a
context produces exactly the theme obtained by applying the styles one by
one to a fresh theme of that context (identical flattened attribute tables
and logs); moreover a theme built by one-by-one application is reproduced
exactly by rebasing it with its own rebase log against the unchanged
context — the log is the source of truth and the table its replayable
cache. -/
theorem theme_rebase_equivalence (am : AssetManager2)
    (pairs : List (Nat × Bool)) (t : Theme) :
    Theme.rebase am t pairs =
      pairs.foldl (fun th p => Theme.applyStyle am th p.1 p.2)
        (Theme.newTheme am.ptr) ∧
    Theme.rebase am
      (pairs.foldl (fun th p => Theme.applyStyle am th p.1 p.2)
        (Theme.newTheme am.ptr))
      ((pairs.foldl (fun th p => Theme.applyStyle am th p.1 p.2)
        (Theme.newTheme am.ptr)).log) =
      pairs.foldl (fun th p => Theme.applyStyle am th p.1 p.2)
        (Theme.newTheme am.ptr) := by
  constructor
  · rfl
  · have h := rebase_replay_aux am pairs (Theme.newTheme am.ptr) rfl rfl
    exact h.2

end AssetManagerJni
